import Mathlib

/-!
Shallow embedding of the token-lifecycle core of `eosws-js`
(`src/client/connector.ts`, class `EoswsConnector`).

Times are rationals (seconds since epoch, as produced by `Date.now() / 1000`).
The token-exchange outcome (`client.getNewApiToken`) is threaded through each
operation as an oracle value `exch : Except String ApiTokenInfo`; errors are
modelled as their message strings.

The collaborators `ApiTokenStorage`, `RefreshScheduler` and `EoswsClient` are
repository code not present here, so their contracts are modelled from the
spec (see the doc comments below); the connector logic itself is translated
line by line from `connector.ts`.
-/

/-- A token record `ApiTokenInfo`: an uninterpreted credential string plus an absolute expiry in seconds. -/
structure ApiTokenInfo where
  token : String
  expires_at : ℚ
deriving DecidableEq, Repr

/-- State of one `EoswsConnector` instance together with its collaborators.

Modelled from the spec: the Token Store (`storedToken`, a dumb holder with
`get`/`set`), the Refresh Scheduler (`armedDelay`, at most one pending one-shot
timer, replaced on each `scheduleNextRefresh`), and the Transport Client
(observed through the counters `networkCalls`, `clientConnects`,
`clientReconnects`, `clientDisconnects`, one per collaborator call).
The fields proper to the connector (`tokenPromise`, `firstCall`, `delayBuffer`,
`apiKey`) come straight from `connector.ts`; `tokenPromise` holds the id of
the in-flight fetch promise when one exists, and `nextPromiseId` supplies
fresh ids. -/
structure ConnectorState where
  tokenPromise : Option Nat
  nextPromiseId : Nat
  storedToken : Option ApiTokenInfo
  firstCall : Bool
  delayBuffer : ℚ
  apiKey : String
  armedDelay : Option ℚ
  networkCalls : Nat
  clientConnects : Nat
  clientReconnects : Nat
  clientDisconnects : Nat
deriving DecidableEq, Repr

/-- The constant `DEFAULT_DELAY_BUFFER_PERCENT = 0.9` from `connector.ts`. -/
def DEFAULT_DELAY_BUFFER_PERCENT : ℚ := 9 / 10

/-- The constructor of `EoswsConnector`: `delayBuffer` falls back to the
default when absent or falsy (`params.delayBuffer ? params.delayBuffer :
this.DEFAULT_DELAY_BUFFER_PERCENT`, where the number `0` is falsy in JS);
the token store defaults to an empty in-memory store when none is injected. -/
def mkConnector (apiKey : String) (delayBuffer : Option ℚ)
    (initialStore : Option ApiTokenInfo) : ConnectorState :=
  { tokenPromise := none
    nextPromiseId := 0
    storedToken := initialStore
    firstCall := true
    delayBuffer :=
      match delayBuffer with
      | some d => if d ≠ 0 then d else DEFAULT_DELAY_BUFFER_PERCENT
      | none => DEFAULT_DELAY_BUFFER_PERCENT
    apiKey := apiKey
    armedDelay := none
    networkCalls := 0
    clientConnects := 0
    clientReconnects := 0
    clientDisconnects := 0 }

/-- The method `isExpiring(tokenInfo?)`: absent tokens count as expiring; otherwise
`tokenInfo.expires_at <= now`. -/
def isExpiring (now : ℚ) (tokenInfo : Option ApiTokenInfo) : Bool :=
  match tokenInfo with
  | none => true
  | some t => decide (t.expires_at ≤ now)

/-- The method `getRefreshDelay(tokenInfo)`: `(tokenInfo.expires_at - now) * 0.9`.
The source multiplies by the literal `0.9`; it does not read
`this.delayBuffer`. -/
def getRefreshDelay (now : ℚ) (tokenInfo : ApiTokenInfo) : ℚ :=
  (tokenInfo.expires_at - now) * (9 / 10)

/-- Modelled from the spec: the refresh-delay formula as §4.3 states it,
`delay = (expires_at - now_seconds) * delayBuffer`, with `delayBuffer` the
construction-time value. Compared against `getRefreshDelay` from the source. -/
def specRefreshDelay (delayBuffer now : ℚ) (tokenInfo : ApiTokenInfo) : ℚ :=
  (tokenInfo.expires_at - now) * delayBuffer

/-- The synchronous head of `fetchToken()`: if `this.tokenPromise` is set,
return that same pending promise without touching the network; otherwise
invoke `client.getNewApiToken(this.apiKey)` (counted in `networkCalls`) and
install a fresh promise in `this.tokenPromise`. Returns the id of the promise
the caller awaits. -/
def fetchTokenStart (s : ConnectorState) : Nat × ConnectorState :=
  match s.tokenPromise with
  | some pid => (pid, s)
  | none =>
      (s.nextPromiseId,
        { s with
            tokenPromise := some s.nextPromiseId
            nextPromiseId := s.nextPromiseId + 1
            networkCalls := s.networkCalls + 1 })

/-- Settling of the in-flight promise: both the `.then` handler and the
`.catch` handler in `fetchToken` set `this.tokenPromise = undefined` before
resolving/rejecting. -/
def fetchSettle (s : ConnectorState) : ConnectorState :=
  { s with tokenPromise := none }

/-- The method `fetchToken()` run to completion: start (or join) the in-flight fetch,
let the exchange settle with outcome `exch`, and deliver that outcome.
A fulfilled promise always carries an `ApiTokenInfo`, so the `ok` value is
always `some`; the `Option` mirrors the declared return type
`Promise<ApiTokenInfo | undefined>`. -/
def fetchTokenRun (exch : Except String ApiTokenInfo) (s : ConnectorState) :
    Except String (Option ApiTokenInfo) × ConnectorState :=
  let s1 := (fetchTokenStart s).2
  match exch with
  | Except.ok t => (Except.ok (some t), fetchSettle s1)
  | Except.error e => (Except.error e, fetchSettle s1)

/-- The method `refreshToken()` run to completion: await `fetchToken`; on a truthy
result, store it, arm the scheduler with `getRefreshDelay`, and return it;
on a falsy result throw `"error getting token"`; a rejection propagates. -/
def refreshTokenRun (now : ℚ) (exch : Except String ApiTokenInfo)
    (s : ConnectorState) : Except String ApiTokenInfo × ConnectorState :=
  match fetchTokenRun exch s with
  | (Except.error e, s1) => (Except.error e, s1)
  | (Except.ok (some tokenInfo), s1) =>
      (Except.ok tokenInfo,
        { s1 with
            storedToken := some tokenInfo
            armedDelay := some (getRefreshDelay now tokenInfo) })
  | (Except.ok none, s1) => (Except.error "error getting token", s1)

/-- The method `getToken()` run to completion. Expiring/absent branch: consume the
first-call flag, `await refreshToken()`, store and return the fresh token.
Otherwise: on the very first call arm the scheduler with
`getRefreshDelay(tokenInfo!)` and consume the flag; return the stored token
unchanged. (in the source, `tokenInfo!` asserts non-nullness; in this branch
the store is necessarily non-empty since `isExpiring` is true on `none`.) -/
def getTokenRun (now : ℚ) (exch : Except String ApiTokenInfo)
    (s : ConnectorState) : Except String (Option ApiTokenInfo) × ConnectorState :=
  let tokenInfo := s.storedToken
  if isExpiring now tokenInfo then
    match refreshTokenRun now exch { s with firstCall := false } with
    | (Except.error e, s1) => (Except.error e, s1)
    | (Except.ok apiTokenInfo, s1) =>
        (Except.ok (some apiTokenInfo), { s1 with storedToken := some apiTokenInfo })
  else
    if s.firstCall then
      (Except.ok tokenInfo,
        { s with
            armedDelay := some (getRefreshDelay now (tokenInfo.getD ⟨"", 0⟩))
            firstCall := false })
    else
      (Except.ok tokenInfo, s)

/-- The method `connect()` run to completion: `await getToken()`; on a truthy token,
store it and delegate to `client.connect()` (counted in `clientConnects`);
on a falsy token throw `"error getting token"`; a rejection propagates. -/
def connectRun (now : ℚ) (exch : Except String ApiTokenInfo)
    (s : ConnectorState) : Except String Unit × ConnectorState :=
  match getTokenRun now exch s with
  | (Except.error e, s1) => (Except.error e, s1)
  | (Except.ok (some apiToken), s1) =>
      (Except.ok (),
        { s1 with
            storedToken := some apiToken
            clientConnects := s1.clientConnects + 1 })
  | (Except.ok none, s1) => (Except.error "error getting token", s1)

/-- The method `reconnect()`: `await this.client.reconnect()` and nothing else. -/
def reconnectRun (s : ConnectorState) : ConnectorState :=
  { s with clientReconnects := s.clientReconnects + 1 }

/-- The method `disconnect()`: `await this.client.disconnect()` and nothing else. -/
def disconnectRun (s : ConnectorState) : ConnectorState :=
  { s with clientDisconnects := s.clientDisconnects + 1 }

/-- A run of `n` consecutive synchronous entries into `fetchToken()` (the concurrent
callers of `refreshToken` before the shared exchange settles), collecting the
promise id each caller awaits. -/
def fetchStarts : Nat → ConnectorState → List Nat × ConnectorState
  | 0, s => ([], s)
  | n + 1, s =>
      let (pid, s1) := fetchTokenStart s
      let (rest, s2) := fetchStarts n s1
      (pid :: rest, s2)

/-- Scenario token from §8: `{token: "tok1", expires_at: now + 1000}` at `now = 0`. -/
def tok1 : ApiTokenInfo := ⟨"tok1", 1000⟩

/-- A connector freshly constructed with API key `"abc123"`, default
`delayBuffer`, and an empty store. -/
def freshConnector : ConnectorState := mkConnector "abc123" none none

/-- A connector constructed with `delayBuffer = 1/2` whose store holds a token
expiring 100 seconds after `now = 0`. -/
def halfBufferConnector : ConnectorState :=
  mkConnector "k" (some (1 / 2)) (some ⟨"tok", 100⟩)

/-- A connector whose store holds a still-valid token (expiry 100, `now = 0`). -/
def validTokenConnector : ConnectorState := mkConnector "k" none (some ⟨"tok", 100⟩)

/-- A connector whose store holds the expired token `tokOld` (expiry `now - 5`
at `now = 0`). -/
def expiredTokenConnector : ConnectorState :=
  mkConnector "k" none (some ⟨"tokOld", -5⟩)

/-- A connector with a fetch already in flight (promise id 5). -/
def pendingFetchConnector : ConnectorState :=
  { freshConnector with tokenPromise := some 5 }

/-- Helper: while the in-flight marker holds `pid`, every further entry into
`fetchToken` just returns that promise and the state does not move. -/
theorem fetchStarts_pending (pid : Nat) :
    ∀ (n : Nat) (s : ConnectorState), s.tokenPromise = some pid →
      fetchStarts n s = (List.replicate n pid, s) := by
  intro n
  induction n with
  | zero => intro s h; simp [fetchStarts]
  | succ m ih =>
      intro s h
      simp [fetchStarts, fetchTokenStart, h, ih s h, List.replicate_succ]

/-- C1 (refuted on the code; failing input `delayBuffer = 1/2`, token expiring
100 seconds after `now = 0`): both refresh-arming paths pass the scheduler
`(expires_at - now) * 0.9 = 90`, while the claimed formula
`(expires_at - now) * delayBuffer` with the constructed `delayBuffer = 1/2`
gives `50` — `getRefreshDelay` hardcodes the literal `0.9` and never reads the
`delayBuffer` stored by the constructor. -/
theorem getRefreshDelay_ignores_configured_delayBuffer :
    (getTokenRun 0 (Except.ok tok1) halfBufferConnector).2.armedDelay = some 90
    ∧ (refreshTokenRun 0 (Except.ok ⟨"tok2", 100⟩)
        (mkConnector "k" (some (1 / 2)) none)).2.armedDelay = some 90
    ∧ specRefreshDelay halfBufferConnector.delayBuffer 0 ⟨"tok", 100⟩ = 50
    ∧ (90 : ℚ) ≠ 50 := by
  refine ⟨?_, ?_, ?_, by norm_num⟩
  · norm_num [getTokenRun, isExpiring, getRefreshDelay, halfBufferConnector,
      mkConnector, DEFAULT_DELAY_BUFFER_PERCENT, tok1]
  · norm_num [refreshTokenRun, fetchTokenRun, fetchTokenStart, fetchSettle,
      getRefreshDelay, mkConnector, DEFAULT_DELAY_BUFFER_PERCENT]
  · norm_num [specRefreshDelay, halfBufferConnector, mkConnector]

/-- C2: whenever the token exchange is actually invoked (the stored token is
absent or expiring) and rejects with `e`, `connect()` rejects with that same
surfaced failure, the transport `connect()` is never invoked, and the token
store is left unchanged. -/
theorem connect_exchange_failure (now : ℚ) (e : String) (s : ConnectorState)
    (hexp : isExpiring now s.storedToken = true) :
    (connectRun now (Except.error e) s).1 = Except.error e
    ∧ ((connectRun now (Except.error e) s).2).clientConnects = s.clientConnects
    ∧ ((connectRun now (Except.error e) s).2).storedToken = s.storedToken := by
  cases h : s.tokenPromise <;>
    simp [connectRun, getTokenRun, refreshTokenRun, fetchTokenRun, fetchTokenStart,
      fetchSettle, hexp, h]

/-- C2 witness: a connector holding an expired token, exchange rejecting with
`"boom"`. -/
theorem connect_exchange_failure_witness :
    (connectRun 0 (Except.error "boom") expiredTokenConnector).1
      = Except.error "boom" :=
  (connect_exchange_failure 0 "boom" expiredTokenConnector (by decide)).1

/-- C3: at most one token fetch is in flight — entering `fetchToken` while the
marker is set returns the very same pending promise and moves nothing, and
`n ≥ 1` concurrent entries from a quiescent connector make exactly one
token-exchange network call, with every caller awaiting the same promise
(hence receiving the same resulting `ApiTokenInfo`). -/
theorem fetchToken_single_flight :
    (∀ (s : ConnectorState) (pid : Nat), s.tokenPromise = some pid →
      fetchTokenStart s = (pid, s))
    ∧ (∀ (n : Nat) (s : ConnectorState), s.tokenPromise = none → 1 ≤ n →
      ((fetchStarts n s).2).networkCalls = s.networkCalls + 1
      ∧ ∀ pid ∈ (fetchStarts n s).1, pid = s.nextPromiseId) := by
  constructor
  · intro s pid h
    simp [fetchTokenStart, h]
  · intro n s h hn
    obtain ⟨m, rfl⟩ : ∃ m, n = m + 1 := ⟨n - 1, by omega⟩
    obtain ⟨s1, hp, hpend, hcalls⟩ :
        ∃ s1, fetchTokenStart s = (s.nextPromiseId, s1)
          ∧ s1.tokenPromise = some s.nextPromiseId
          ∧ s1.networkCalls = s.networkCalls + 1 := by
      refine ⟨(fetchTokenStart s).2, ?_, ?_, ?_⟩ <;> simp [fetchTokenStart, h]
    have hfs : fetchStarts (m + 1) s
        = (s.nextPromiseId :: List.replicate m s.nextPromiseId, s1) := by
      simp only [fetchStarts, hp, fetchStarts_pending s.nextPromiseId m s1 hpend]
    refine ⟨by rw [hfs]; exact hcalls, ?_⟩
    intro pid hpid
    rw [hfs] at hpid
    simp only [List.mem_cons, List.mem_replicate] at hpid
    rcases hpid with hpid | ⟨-, hpid⟩ <;> exact hpid

/-- C3 witness: a joined fetch on a pending connector, and three concurrent
entries from a quiescent connector making exactly one network call. -/
theorem fetchToken_single_flight_witness :
    fetchTokenStart pendingFetchConnector = (5, pendingFetchConnector)
    ∧ (((fetchStarts 3 freshConnector).2).networkCalls
          = freshConnector.networkCalls + 1
        ∧ ∀ pid ∈ (fetchStarts 3 freshConnector).1,
            pid = freshConnector.nextPromiseId) :=
  ⟨fetchToken_single_flight.1 pendingFetchConnector 5 rfl,
   fetchToken_single_flight.2 3 freshConnector rfl (by decide)⟩

/-- C4: `isExpiring` on a present token is true exactly when
`expires_at ≤ now`, and on an absent token it is always true. -/
theorem isExpiring_iff (now : ℚ) (t : ApiTokenInfo) :
    (isExpiring now (some t) = true ↔ t.expires_at ≤ now)
    ∧ isExpiring now none = true := by
  simp [isExpiring]

/-- C5: a `getToken()` call that finds an absent or expiring stored token
(and no fetch already in flight) performs one fetch, stores the freshly
fetched token, and returns that fresh token — not the previously stored
one. -/
theorem getToken_expired_path (now : ℚ) (t : ApiTokenInfo) (s : ConnectorState)
    (hexp : isExpiring now s.storedToken = true) (hq : s.tokenPromise = none) :
    (getTokenRun now (Except.ok t) s).1 = Except.ok (some t)
    ∧ ((getTokenRun now (Except.ok t) s).2).storedToken = some t
    ∧ ((getTokenRun now (Except.ok t) s).2).networkCalls = s.networkCalls + 1 := by
  simp [getTokenRun, refreshTokenRun, fetchTokenRun, fetchTokenStart, fetchSettle,
    hexp, hq]

/-- C5 witness: the §8 scenario — an expired `tokOld` is replaced by and the
call returns the fresh `tok1`. -/
theorem getToken_expired_path_witness :
    (getTokenRun 0 (Except.ok tok1) expiredTokenConnector).1
      = Except.ok (some tok1) :=
  (getToken_expired_path 0 tok1 expiredTokenConnector (by decide) rfl).1

/-- C6: on a `getToken()` call that finds a present, non-expiring stored
token, the stored token is returned unchanged; the scheduler is armed exactly
when the first-call flag is still set (the flag tracks whether any `getToken`
call ran before on this instance), and the flag is then consumed; once the
flag is consumed the state is left completely unchanged, so subsequent calls
never re-arm the scheduler. -/
theorem getToken_fresh_path (now : ℚ) (exch : Except String ApiTokenInfo)
    (t : ApiTokenInfo) (s : ConnectorState)
    (ht : s.storedToken = some t)
    (hfresh : isExpiring now s.storedToken = false) :
    (getTokenRun now exch s).1 = Except.ok (some t)
    ∧ (s.firstCall = true →
        (getTokenRun now exch s).2
          = { s with
                armedDelay := some (getRefreshDelay now t)
                firstCall := false })
    ∧ (s.firstCall = false → (getTokenRun now exch s).2 = s) := by
  rw [ht] at hfresh
  cases hfc : s.firstCall <;>
    simp [getTokenRun, ht, hfresh, hfc]

/-- C6 witness: a first call on a connector holding a valid token returns that
token unchanged. -/
theorem getToken_fresh_path_witness :
    (getTokenRun 0 (Except.ok tok1) validTokenConnector).1
      = Except.ok (some (⟨"tok", 100⟩ : ApiTokenInfo)) :=
  (getToken_fresh_path 0 (Except.ok tok1) ⟨"tok", 100⟩ validTokenConnector rfl
    (by decide)).1

/-- C7: the pending-fetch marker is cleared when the exchange settles, on
success and failure alike, so the next `fetchToken` entry starts a fresh
network fetch (one more exchange call) instead of being stuck on a settled
promise. -/
theorem fetch_marker_cleared (exch : Except String ApiTokenInfo)
    (s : ConnectorState) :
    ((fetchTokenRun exch s).2).tokenPromise = none
    ∧ ((fetchTokenStart (fetchTokenRun exch s).2).2).networkCalls
        = ((fetchTokenRun exch s).2).networkCalls + 1 := by
  cases exch <;> simp [fetchTokenRun, fetchSettle, fetchTokenStart]

/-- C8: `reconnect()` and `disconnect()` are pure delegations to the transport
client: each bumps only its transport call counter, and the token store, the
armed refresh timer, the first-call flag, the in-flight marker and the
token-exchange call count are all untouched. -/
theorem reconnect_disconnect_frame (s : ConnectorState) :
    reconnectRun s = { s with clientReconnects := s.clientReconnects + 1 }
    ∧ disconnectRun s = { s with clientDisconnects := s.clientDisconnects + 1 }
    ∧ (reconnectRun s).storedToken = s.storedToken
    ∧ (reconnectRun s).armedDelay = s.armedDelay
    ∧ (reconnectRun s).firstCall = s.firstCall
    ∧ (reconnectRun s).tokenPromise = s.tokenPromise
    ∧ (reconnectRun s).networkCalls = s.networkCalls
    ∧ (disconnectRun s).storedToken = s.storedToken
    ∧ (disconnectRun s).armedDelay = s.armedDelay
    ∧ (disconnectRun s).firstCall = s.firstCall
    ∧ (disconnectRun s).tokenPromise = s.tokenPromise
    ∧ (disconnectRun s).networkCalls = s.networkCalls := by
  simp [reconnectRun, disconnectRun]

/-- C9: the §8 connect scenario — from an empty store, with the exchange
returning `{token: "tok1", expires_at: now + 1000}` at `now = 0`, `connect()`
succeeds, the store then holds `tok1` expiring at `1000`, the transport
`connect()` was invoked exactly once, exactly one exchange call was made, and
the refresh timer is armed for `900 = 1000 * 0.9` seconds. -/
theorem connect_scenario :
    (connectRun 0 (Except.ok tok1) freshConnector).1 = Except.ok ()
    ∧ ((connectRun 0 (Except.ok tok1) freshConnector).2).storedToken = some tok1
    ∧ ((connectRun 0 (Except.ok tok1) freshConnector).2).clientConnects = 1
    ∧ ((connectRun 0 (Except.ok tok1) freshConnector).2).networkCalls = 1
    ∧ ((connectRun 0 (Except.ok tok1) freshConnector).2).armedDelay = some 900 := by
  norm_num [connectRun, getTokenRun, refreshTokenRun, fetchTokenRun,
    fetchTokenStart, fetchSettle, isExpiring, getRefreshDelay, mkConnector,
    freshConnector, tok1, DEFAULT_DELAY_BUFFER_PERCENT]

/-- C10: whenever `getToken()` resolves it resolves with a present token,
never the absent value, and any rejection of `refreshToken()` or `connect()`
is exactly the underlying exchange failure — the `"error getting token"`
throw branches (the falsy checks in `connect` and `refreshToken`) are
unreachable. -/
theorem token_acquisition_total :
    (∀ (now : ℚ) (exch : Except String ApiTokenInfo) (s : ConnectorState)
        (v : Option ApiTokenInfo),
      (getTokenRun now exch s).1 = Except.ok v → v.isSome = true)
    ∧ (∀ (now : ℚ) (exch : Except String ApiTokenInfo) (s : ConnectorState)
        (e : String),
      (refreshTokenRun now exch s).1 = Except.error e → exch = Except.error e)
    ∧ (∀ (now : ℚ) (exch : Except String ApiTokenInfo) (s : ConnectorState)
        (e : String),
      (connectRun now exch s).1 = Except.error e → exch = Except.error e) := by
  refine ⟨?_, ?_, ?_⟩
  · intro now exch s v h
    cases hexp : isExpiring now s.storedToken with
    | true =>
        cases exch with
        | ok t =>
            simp [getTokenRun, refreshTokenRun, fetchTokenRun, hexp] at h
            simp [← h]
        | error e => simp [getTokenRun, refreshTokenRun, fetchTokenRun, hexp] at h
    | false =>
        cases hst : s.storedToken with
        | none => simp [isExpiring, hst] at hexp
        | some t =>
            rw [hst] at hexp
            cases hfc : s.firstCall <;>
              simp [getTokenRun, hexp, hst, hfc] at h <;>
              simp [← h]
  · intro now exch s e h
    cases exch with
    | ok t => simp [refreshTokenRun, fetchTokenRun] at h
    | error e2 =>
        simp [refreshTokenRun, fetchTokenRun] at h
        simp [h]
  · intro now exch s e h
    cases hexp : isExpiring now s.storedToken with
    | true =>
        cases exch with
        | ok t => simp [connectRun, getTokenRun, refreshTokenRun, fetchTokenRun, hexp] at h
        | error e2 =>
            simp [connectRun, getTokenRun, refreshTokenRun, fetchTokenRun, hexp] at h
            simp [h]
    | false =>
        cases hst : s.storedToken with
        | none => simp [isExpiring, hst] at hexp
        | some t =>
            rw [hst] at hexp
            cases hfc : s.firstCall <;>
              simp [connectRun, getTokenRun, hexp, hst, hfc] at h

/-- C10 witness: a successful exchange yields a present token through
`getToken`, and a `refreshToken` rejection carries exactly the failure of the
exchange. -/
theorem token_acquisition_total_witness :
    (some tok1).isSome = true
    ∧ (Except.error "boom" : Except String ApiTokenInfo) = Except.error "boom" :=
  ⟨token_acquisition_total.1 0 (Except.ok tok1) freshConnector (some tok1) rfl,
   token_acquisition_total.2.1 0 (Except.error "boom") freshConnector "boom" rfl⟩
